import Mathlib

/-!
# passport-thingiverse: `lib/passport-thingiverse/strategy.js`

A shallow embedding of the Thingiverse strategy: the `Strategy` constructor
(option defaulting, delegation to the base OAuth strategy, the fixed name) and
`Strategy.prototype.userProfile` (one signed GET, the JSON reshape and the
error-first completion callback).

JavaScript values are a small inductive type; exceptions are `Except JsVal`;
the side effects of `userProfile` (requests sent through the OAuth engine and
invocations of `done`) are recorded in an explicit `World` that is threaded
through the computation.
-/

namespace PassportThingiverse

/-! ## JavaScript values -/

/-- JavaScript values that can reach this module.  A number is carried as a
decimal text that denotes it (the strategy never computes with a number; it
only tests one for being zero or `NaN`, see `numIsFalsy`); objects
are insertion-ordered lists of own properties; `error` is an `Error` instance
with its constructor name and message; `func` is a function value, opaque but
for its name. -/
inductive JsVal where
  | undefined : JsVal
  | null : JsVal
  | bool (b : Bool) : JsVal
  | num (text : String) : JsVal
  | str (s : String) : JsVal
  | arr (items : List JsVal) : JsVal
  | obj (fields : List (String × JsVal)) : JsVal
  | error (name : String) (message : String) : JsVal
  | func (name : String) : JsVal

/-- The own properties of a plain object, in insertion order. -/
abbrev JsObj := List (String × JsVal)

/-- Decimal digit test. -/
def isDigit (c : Char) : Bool := '0' ≤ c && c ≤ '9'

/-- The natural number a run of decimal digits writes. -/
def natOfDigits (ds : List Char) : Nat :=
  ds.foldl (fun n c => 10 * n + (c.toNat - 48)) 0

/-- The exponent part of a decimal text, after its `e` or `E`: an optional sign
and at least one digit, nothing else. -/
def readExponent (cs : List Char) : Option Int :=
  let negative := cs.head? == some '-'
  let ds := if cs.head? == some '-' || cs.head? == some '+' then cs.drop 1 else cs
  if ds.isEmpty || !ds.all isDigit then none
  else if negative then some (-(natOfDigits ds : Int))
  else some (natOfDigits ds : Int)

/-- A decimal text read as magnitude `m * 10 ^ e`: an optional sign, digits, an
optional point with digits, an optional exponent.  The pair is `(m, e)`; a text
of another shape (`Infinity`, `NaN`) gives `none`. -/
def readDecimal (text : String) : Option (Nat × Int) :=
  let cs := text.toList
  let cs := if cs.head? == some '-' || cs.head? == some '+' then cs.drop 1 else cs
  let int := cs.takeWhile isDigit
  let cs1 := cs.dropWhile isDigit
  let frac := if cs1.head? == some '.' then (cs1.drop 1).takeWhile isDigit else []
  let cs2 := if cs1.head? == some '.' then (cs1.drop 1).dropWhile isDigit else cs1
  if int.isEmpty && frac.isEmpty then none
  else
    match cs2 with
    | [] => some (natOfDigits (int ++ frac), -(frac.length : Int))
    | c :: rest =>
        if c = 'e' ∨ c = 'E' then
          match readExponent rest with
          | none => none
          | some e => some (natOfDigits (int ++ frac), e - (frac.length : Int))
        else none

/-- Whether the double nearest to `m * 10 ^ e` is zero.  The least positive
double is `2 ^ -1074`; under round-to-nearest, ties to even, exactly the
magnitudes up to `2 ^ -1075` round to zero. -/
def roundsToZero (m : Nat) (e : Int) : Bool :=
  if 0 ≤ e then m == 0 else decide (m * 2 ^ 1075 ≤ 10 ^ e.natAbs)

/-- Whether a number, given by a decimal text, is `0`, `-0` or `NaN`: the text
is `NaN`, or the double it denotes is zero (`0`, `-0.0`, and also `1e-400`,
which is zero after rounding). -/
def numIsFalsy (text : String) : Bool :=
  text == "NaN" ||
    match readDecimal text with
    | none => false
    | some (m, e) => roundsToZero m e

/-- ToBoolean: the test applied by `if (x)` and by `x || y`. -/
def truthy : JsVal → Bool
  | .undefined => false
  | .null => false
  | .bool b => b
  | .num text => !numIsFalsy text
  | .str s => s != ""
  | .arr _ => true
  | .obj _ => true
  | .error _ _ => true
  | .func _ => true

/-- The expression `a || b`. -/
def jsOr (a b : JsVal) : JsVal :=
  if truthy a then a else b

/-- Own-property lookup in a plain object. -/
def getOwn : JsObj → String → Option JsVal
  | [], _ => none
  | (k, v) :: rest, key => if k = key then some v else getOwn rest key

/-- Reading `o.key` on a plain object: the own property, else `undefined`
(no built-in prototype carries any of the property names this module reads). -/
def readField (o : JsObj) (key : String) : JsVal :=
  (getOwn o key).getD .undefined

/-- The assignment `o.key = v` on a plain object: an existing property is
overwritten in place, a new one is appended. -/
def setProp : JsObj → String → JsVal → JsObj
  | [], key, v => [(key, v)]
  | (k, w) :: rest, key, v =>
      if k = key then (k, v) :: rest else (k, w) :: setProp rest key v

/-- The `TypeError` raised by a property read on `undefined` or `null`. -/
def cannotRead (base key : String) : JsVal :=
  .error "TypeError"
    ("Cannot read properties of " ++ base ++ " (reading '" ++ key ++ "')")

/-- The member expression `v.key`, for the property names this module reads
(`user`, `id`, `name`, `email`): `undefined` and `null` throw a `TypeError`; a
plain object yields its own property or `undefined`; an `Error` and a function
have a `name`; booleans, numbers, strings and arrays have none of the four. -/
def getProp (v : JsVal) (key : String) : Except JsVal JsVal :=
  match v with
  | .undefined => .error (cannotRead "undefined" key)
  | .null => .error (cannotRead "null" key)
  | .obj fields => .ok (readField fields key)
  | .error name _ => .ok (if key = "name" then .str name else .undefined)
  | .func name => .ok (if key = "name" then .str name else .undefined)
  | _ => .ok .undefined

/-! ## `JSON.parse`

The built-in `JSON.parse`, restricted to one string argument: the JSON grammar
of ECMA-262 (24.5.1), read over the characters of the text.  Recursion is on a
fuel argument.  A call of `parseValue` reads at least one character before it
descends and a round of `parseElements` or `parseMembers` at least two, each
spending one unit of fuel, so a text of `n` characters needs no more than `2 * n`;
`JSONparse` supplies `2 * n + 2`. -/

/-- JSON white space: tab, line feed, carriage return, space. -/
def isWs (c : Char) : Bool :=
  c == Char.ofNat 9 || c == Char.ofNat 10 || c == Char.ofNat 13 || c == ' '

/-- Drop leading JSON white space. -/
def skipWs : List Char → List Char
  | [] => []
  | c :: cs => if isWs c then skipWs cs else c :: cs

/-- Remove `lit` from the front of the input, if it is there. -/
def dropLiteral : List Char → List Char → Option (List Char)
  | [], cs => some cs
  | _ :: _, [] => none
  | l :: ls, c :: cs => if l = c then dropLiteral ls cs else none

/-- Value of a hexadecimal digit. -/
def hexVal (c : Char) : Option Nat :=
  if '0' ≤ c && c ≤ '9' then some (c.toNat - 48)
  else if 'a' ≤ c && c ≤ 'f' then some (c.toNat - 87)
  else if 'A' ≤ c && c ≤ 'F' then some (c.toNat - 55)
  else none

/-- Four hexadecimal digits of a `\u` escape: the UTF-16 code unit and the rest. -/
def hex4 : List Char → Option (Nat × List Char)
  | a :: b :: c :: d :: rest =>
      match hexVal a, hexVal b, hexVal c, hexVal d with
      | some x, some y, some z, some w => some (((x * 16 + y) * 16 + z) * 16 + w, rest)
      | _, _, _, _ => none
  | _ => none

/-- The character of a single-character escape `\c`. -/
def simpleEscape (c : Char) : Option Char :=
  if c = Char.ofNat 34 then some (Char.ofNat 34)
  else if c = Char.ofNat 92 then some (Char.ofNat 92)
  else if c = '/' then some '/'
  else if c = 'b' then some (Char.ofNat 8)
  else if c = 'f' then some (Char.ofNat 12)
  else if c = 'n' then some (Char.ofNat 10)
  else if c = 'r' then some (Char.ofNat 13)
  else if c = 't' then some (Char.ofNat 9)
  else none

/-- The characters of a JSON string after its opening quote, up to and
including the closing quote; `acc` holds the decoded characters in reverse.
A `\u` escape yields its code unit; a high surrogate followed by an escaped low
surrogate yields the code point of the pair.  (A lone surrogate, which a
JavaScript string can hold and a `String` here cannot, becomes U+FFFD.) -/
def parseChars : Nat → List Char → List Char → Option (String × List Char)
  | 0, _, _ => none
  | _ + 1, [], _ => none
  | fuel + 1, c :: cs, acc =>
      if c = Char.ofNat 34 then some (String.mk acc.reverse, cs)
      else if c = Char.ofNat 92 then
        match cs with
        | [] => none
        | e :: rest =>
            if e = 'u' then
              match hex4 rest with
              | none => none
              | some (hi, rest1) =>
                  if 0xD800 ≤ hi ∧ hi ≤ 0xDBFF then
                    match dropLiteral [Char.ofNat 92, 'u'] rest1 with
                    | none => parseChars fuel rest1 (Char.ofNat 0xFFFD :: acc)
                    | some rest2 =>
                        match hex4 rest2 with
                        | none => none
                        | some (lo, rest3) =>
                            if 0xDC00 ≤ lo ∧ lo ≤ 0xDFFF then
                              parseChars fuel rest3
                                (Char.ofNat (0x10000 + (hi - 0xD800) * 0x400 + (lo - 0xDC00)) :: acc)
                            else parseChars fuel rest1 (Char.ofNat 0xFFFD :: acc)
                  else if 0xDC00 ≤ hi ∧ hi ≤ 0xDFFF then
                    parseChars fuel rest1 (Char.ofNat 0xFFFD :: acc)
                  else parseChars fuel rest1 (Char.ofNat hi :: acc)
            else
              match simpleEscape e with
              | none => none
              | some d => parseChars fuel rest (d :: acc)
      else if c.toNat < 0x20 then none
      else parseChars fuel cs (c :: acc)

/-- A JSON string whose opening quote has been read. -/
def parseString (cs : List Char) : Option (String × List Char) :=
  parseChars (cs.length + 1) cs []

/-- The integer part of a number: `0`, or a non-zero digit and more digits. -/
def parseInt : List Char → Option (List Char × List Char)
  | [] => none
  | c :: cs =>
      if c = '0' then some (['0'], cs)
      else if isDigit c then some (c :: cs.takeWhile isDigit, cs.dropWhile isDigit)
      else none

/-- The optional fraction: a point and at least one digit. -/
def parseFrac : List Char → Option (List Char × List Char)
  | [] => some ([], [])
  | c :: cs =>
      if c = '.' then
        match cs.takeWhile isDigit with
        | [] => none
        | ds => some ('.' :: ds, cs.dropWhile isDigit)
      else some ([], c :: cs)

/-- The optional exponent: `e` or `E`, an optional sign, at least one digit. -/
def parseExp : List Char → Option (List Char × List Char)
  | [] => some ([], [])
  | c :: cs =>
      if c = 'e' ∨ c = 'E' then
        let sign := cs.takeWhile (fun s => s == '+' || s == '-') |>.take 1
        let cs1 := cs.drop sign.length
        match cs1.takeWhile isDigit with
        | [] => none
        | ds => some (c :: sign ++ ds, cs1.dropWhile isDigit)
      else some ([], c :: cs)

/-- A JSON number: its text and the rest of the input. -/
def parseNumber (cs : List Char) : Option (String × List Char) :=
  let sign := cs.takeWhile (fun s => s == '-') |>.take 1
  match parseInt (cs.drop sign.length) with
  | none => none
  | some (int, cs1) =>
      match parseFrac cs1 with
      | none => none
      | some (frac, cs2) =>
          match parseExp cs2 with
          | none => none
          | some (exp, cs3) => some (String.mk (sign ++ int ++ frac ++ exp), cs3)

mutual
/-- One JSON value at the head of the input (no leading white space). -/
def parseValue : Nat → List Char → Option (JsVal × List Char)
  | 0, _ => none
  | _ + 1, [] => none
  | fuel + 1, c :: cs =>
      if c = Char.ofNat 123 then
        match skipWs cs with
        | [] => none
        | d :: rest =>
            if d = Char.ofNat 125 then some (.obj [], rest)
            else
              match parseMembers fuel (d :: rest) [] with
              | none => none
              | some (fields, rest1) => some (.obj fields, rest1)
      else if c = '[' then
        match skipWs cs with
        | [] => none
        | d :: rest =>
            if d = ']' then some (.arr [], rest)
            else
              match parseElements fuel (d :: rest) [] with
              | none => none
              | some (items, rest1) => some (.arr items, rest1)
      else if c = Char.ofNat 34 then
        match parseString cs with
        | none => none
        | some (s, rest) => some (.str s, rest)
      else if c = 'n' then (dropLiteral ['u', 'l', 'l'] cs).map (fun rest => (.null, rest))
      else if c = 't' then (dropLiteral ['r', 'u', 'e'] cs).map (fun rest => (.bool true, rest))
      else if c = 'f' then
        (dropLiteral ['a', 'l', 's', 'e'] cs).map (fun rest => (.bool false, rest))
      else
        match parseNumber (c :: cs) with
        | none => none
        | some (text, rest) => some (.num text, rest)

/-- The elements of a non-empty array, up to and including the closing
bracket; `acc` holds the elements read so far. -/
def parseElements : Nat → List Char → List JsVal → Option (List JsVal × List Char)
  | 0, _, _ => none
  | fuel + 1, cs, acc =>
      match parseValue fuel (skipWs cs) with
      | none => none
      | some (v, rest) =>
          match skipWs rest with
          | [] => none
          | d :: rest1 =>
              if d = ',' then parseElements fuel rest1 (acc ++ [v])
              else if d = ']' then some (acc ++ [v], rest1)
              else none

/-- The members of a non-empty object, up to and including the closing brace;
`acc` holds the properties defined so far (a repeated key overwrites). -/
def parseMembers : Nat → List Char → JsObj → Option (JsObj × List Char)
  | 0, _, _ => none
  | fuel + 1, cs, acc =>
      match skipWs cs with
      | [] => none
      | q :: rest =>
          if q = Char.ofNat 34 then
            match parseString rest with
            | none => none
            | some (key, rest1) =>
                match skipWs rest1 with
                | [] => none
                | colon :: rest2 =>
                    if colon = ':' then
                      match parseValue fuel (skipWs rest2) with
                      | none => none
                      | some (v, rest3) =>
                          match skipWs rest3 with
                          | [] => none
                          | d :: rest4 =>
                              if d = ',' then parseMembers fuel rest4 (setProp acc key v)
                              else if d = Char.ofNat 125 then some (setProp acc key v, rest4)
                              else none
                    else none
          else none
end

/-- The `SyntaxError` that `JSON.parse` throws on text that is not JSON. -/
def jsonSyntaxError : JsVal :=
  .error "SyntaxError" "Unexpected token in JSON"

/-- `JSON.parse(text)`: the value the text denotes, or a thrown `SyntaxError`. -/
def JSONparse (text : String) : Except JsVal JsVal :=
  let cs := text.toList
  match parseValue (2 * cs.length + 2) (skipWs cs) with
  | none => .error jsonSyntaxError
  | some (v, rest) =>
      match skipWs rest with
      | [] => .ok v
      | _ :: _ => .error jsonSyntaxError

/-! ## The `Strategy` constructor -/

/-- Default access-token endpoint. -/
def defaultAccessTokenURL : String :=
  "https://www.thingiverse.com/login/oauth/access_token"

/-- Default user-authorization endpoint. -/
def defaultUserAuthorizationURL : String :=
  "https://www.thingiverse.com/login/oauth/authorize"

/-- Default session key. -/
def defaultSessionKey : String := "oauth:thingiverse"

/-- The base constructor `OAuthStrategy`, applied as
`OAuthStrategy.call(this, options, verify)`: it either throws or leaves the
instance in some state. -/
abbrev BaseCtor := JsObj → JsObj → JsVal → Except JsVal JsObj

/-- Lines 44-47 of `strategy.js`: `options = options || {}` followed by the
three defaulting assignments.  The parameter is documented as an `Object`;
`none` stands for an absent (`undefined` or `null`) argument. -/
def defaultedOptions (options : Option JsObj) : JsObj :=
  let options := options.getD []
  let options := setProp options "accessTokenURL"
    (jsOr (readField options "accessTokenURL") (.str defaultAccessTokenURL))
  let options := setProp options "userAuthorizationURL"
    (jsOr (readField options "userAuthorizationURL") (.str defaultUserAuthorizationURL))
  let options := setProp options "sessionKey"
    (jsOr (readField options "sessionKey") (.str defaultSessionKey))
  options

/-- What a call of the constructor does: the `options` object handed to the
base constructor, and either the exception the base constructor threw or the
finished instance. -/
structure Construction where
  handed : JsObj
  verify : JsVal
  result : Except JsVal JsObj

/-- The constructor `function Strategy(options, verify)` run on a fresh
instance `this`. -/
def Strategy (OAuthStrategy : BaseCtor) (this : JsObj) (options : Option JsObj)
    (verify : JsVal) : Construction :=
  let options := defaultedOptions options
  { handed := options
    verify := verify
    result :=
      match OAuthStrategy this options verify with
      | .error e => .error e
      | .ok this => .ok (setProp this "name" (.str "thingiverse")) }

/-! ## `Strategy.prototype.userProfile` -/

/-- One call of `this._oauth.get(url, token, tokenSecret, callback)`. -/
structure GetRequest where
  url : String
  token : JsVal
  tokenSecret : JsVal

/-- What the OAuth engine hands to the callback of a GET: `(err, body, res)`. -/
structure Response where
  err : JsVal
  body : String
  res : JsVal

/-- The observable effects of the strategy: the GET requests issued through the
OAuth engine and the argument lists `done` was invoked with, oldest first. -/
structure World where
  requests : List GetRequest
  doneCalls : List (List JsVal)

/-- A JavaScript computation: it leaves a new world and either completes or
throws. -/
abbrev Js (α : Type) := World → Except JsVal α × World

/-- The completion callback `done`, supplied by the caller: given the earlier
invocations of `done` and the arguments of this one it returns normally
(`none`) or throws a value. -/
abbrev Done := List (List JsVal) → List JsVal → Option JsVal

/-- The call `done(args...)`: the invocation is recorded, then `done` returns
or throws. -/
def callDone (done : Done) (args : List JsVal) : Js Unit := fun w =>
  (match done w.doneCalls args with
    | none => .ok ()
    | some e => .error e,
   { w with doneCalls := w.doneCalls ++ [args] })

/-- Evaluation of `new InternalOAuthError('failed to fetch user profile', err)`
(line 75).  The identifier is resolved before anything is constructed; the
module binds only `util` and `OAuthStrategy` (lines 4-5) and `Strategy`
(line 43), so resolution throws a `ReferenceError` and no value is produced. -/
def newInternalOAuthError (_message : String) (_err : JsVal) : Except JsVal JsVal :=
  .error (.error "ReferenceError" "InternalOAuthError is not defined")

/-- Lines 78-86: parse the body and build the profile.  Any exception (from
`JSON.parse` or from a property read on `undefined`/`null`) leaves the block. -/
def buildProfile (body : String) : Except JsVal JsVal := do
  let json ← JSONparse body
  let profile : JsObj := [("provider", .str "thingiverse")]
  let profile := setProp profile "id" (← (getProp json "user" >>= (getProp · "id")))
  let profile := setProp profile "name" (← (getProp json "user" >>= (getProp · "name")))
  let profile := setProp profile "email" (← (getProp json "user" >>= (getProp · "email")))
  let profile := setProp profile "_raw" (.str body)
  let profile := setProp profile "_json" json
  return .obj profile

/-- The callback `function (err, body, res)` handed to the OAuth engine
(lines 74-92).  `done(null, profile)` stands inside the `try` block, so a value
thrown by that call is caught and handed to `done` again. -/
def profileCallback (done : Done) (err : JsVal) (body : String) (_res : JsVal) : Js Unit :=
  fun w =>
    if truthy err then
      match newInternalOAuthError "failed to fetch user profile" err with
      | .error e => (.error e, w)
      | .ok wrapped => callDone done [wrapped] w
    else
      match buildProfile body with
      | .error e => callDone done [e] w
      | .ok profile =>
          match callDone done [.null, profile] w with
          | (.ok (), w1) => (.ok (), w1)
          | (.error e, w1) => callDone done [e] w1

/-- The method `get` of the OAuth engine, as the strategy sees it. -/
abbrev OAuthGet := String → JsVal → JsVal → (JsVal → String → JsVal → Js Unit) → Js Unit

/-- An OAuth engine that answers each request as `respond` says: the request is
recorded and the callback is run once on the response.  An exception leaving
the callback surfaces in the engine, not in the caller of `userProfile`. -/
def oauthGet (respond : GetRequest → Response) : OAuthGet :=
  fun url token tokenSecret callback w =>
    let request : GetRequest := { url := url, token := token, tokenSecret := tokenSecret }
    let r := respond request
    callback r.err r.body r.res { w with requests := w.requests ++ [request] }

/-- The endpoint of line 74. -/
def profileURL : String := "https://api.thingiverse.com/users/me"

/-- The method `Strategy.prototype.userProfile` (lines 73-93), with
`this._oauth.get` as `get`. -/
def userProfile (get : OAuthGet) (token tokenSecret _params : JsVal) (done : Done) : Js Unit :=
  get profileURL token tokenSecret (profileCallback done)

/-- The request `userProfile` issues for a credential pair. -/
def profileRequest (token tokenSecret : JsVal) : GetRequest :=
  { url := profileURL, token := token, tokenSecret := tokenSecret }

/-- The invocations of `done` made between two worlds. -/
def newDoneCalls (before after : World) : List (List JsVal) :=
  after.doneCalls.drop before.doneCalls.length

/-- The second invocation that follows `done(null, profile)` when that call
throws: `done(e)` with the thrown value. -/
def redelivery (done : Done) (earlier : List (List JsVal)) (args : List JsVal) :
    List (List JsVal) :=
  match done earlier args with
  | none => []
  | some e => [[e]]

/-- The values on which a property read throws: `undefined` and `null`. -/
def isNullish : JsVal → Bool
  | .undefined => true
  | .null => true
  | _ => false

/-- A document in which the path `json.user` leads nowhere: the document is
`undefined` or `null`, is not a plain object, or has `user` missing or `null`. -/
def userAbsent : JsVal → Bool
  | .obj fields => isNullish (readField fields "user")
  | _ => true

/-- A configuration that omits `key` (an absent configuration omits every key). -/
def omits (options : Option JsObj) (key : String) : Bool :=
  match options with
  | none => true
  | some o => (getOwn o key).isNone

/-- The value of `v.key` when the read does not throw (`undefined` stands in
where it does). -/
def memberOf (v : JsVal) (key : String) : JsVal :=
  match getProp v key with
  | .ok x => x
  | .error _ => .undefined

/-- The profile built from a body, its parsed document and the document's
`user` (lines 80-86). -/
def profileOf (body : String) (json user : JsVal) : JsVal :=
  .obj [("provider", .str "thingiverse"), ("id", memberOf user "id"),
    ("name", memberOf user "name"), ("email", memberOf user "email"),
    ("_raw", .str body), ("_json", json)]

/-- The invocations of `done` that one run of the callback makes, read off the
response: none on an engine error, `done(e)` when the `try` block throws,
`done(null, profile)` otherwise, followed by `done(e)` if that call threw. -/
def deliveries (done : Done) (earlier : List (List JsVal)) (err : JsVal) (body : String) :
    List (List JsVal) :=
  if truthy err then []
  else
    match buildProfile body with
    | .error e => [[e]]
    | .ok profile => [.null, profile] :: redelivery done earlier [.null, profile]

/-! ## Sample data -/

/-- The successful upstream body of the specification. -/
def adaBody : String :=
  "\x7b\"user\":\x7b\"id\":\"42\",\"name\":\"Ada\",\"email\":\"ada@example.com\"\x7d\x7d"

/-- A body whose `user` object is empty. -/
def emptyUserBody : String := "\x7b\"user\":\x7b\x7d\x7d"

/-- An engine that answers every request with the same response. -/
def always (r : Response) : GetRequest → Response := fun _ => r

/-- A completion callback that always returns normally. -/
def quietDone : Done := fun _ _ => none

/-- A completion callback that throws whenever it is handed a profile. -/
def throwingDone : Done := fun _ args =>
  match args with
  | [_, _] => some (.error "Error" "verify failed")
  | _ => none

/-- A completion callback with a memory: handed a profile it throws, and what it
throws tells whether it had been invoked before. -/
def moodyDone : Done := fun earlier args =>
  match args with
  | [_, _] => some (.str (if earlier.isEmpty then "first failure" else "another failure"))
  | _ => none

/-- The world before anything happened. -/
def emptyWorld : World := { requests := [], doneCalls := [] }

/-- The base constructor of `passport-oauth`, as far as the name goes: it names
the instance `oauth`. -/
def sampleBase : BaseCtor := fun this _ _ => .ok (setProp this "name" (.str "oauth"))

/-- An error as `node-oauth` reports a failed request. -/
def http500 : JsVal := .obj [("statusCode", .num "500"), ("data", .str "oops")]

/-! ## Property reads and writes -/

theorem getOwn_setProp_same (o : JsObj) (key : String) (v : JsVal) :
    getOwn (setProp o key v) key = some v := by
  induction o with
  | nil => simp [setProp, getOwn]
  | cons hd tl ih =>
      obtain ⟨k, w⟩ := hd
      by_cases h : k = key
      · simp [setProp, getOwn, h]
      · simp [setProp, getOwn, h, ih]

theorem getOwn_setProp_other (o : JsObj) (key other : String) (v : JsVal)
    (hne : key ≠ other) : getOwn (setProp o key v) other = getOwn o other := by
  induction o with
  | nil => simp [setProp, getOwn, hne]
  | cons hd tl ih =>
      obtain ⟨k, w⟩ := hd
      by_cases h : k = key
      · subst h
        simp [setProp, getOwn, hne]
      · by_cases h2 : k = other
        · subst h2
          simp [setProp, getOwn, h]
        · simp [setProp, getOwn, h, h2, ih]

theorem readField_setProp_same (o : JsObj) (key : String) (v : JsVal) :
    readField (setProp o key v) key = v := by
  simp [readField, getOwn_setProp_same]

theorem readField_setProp_other (o : JsObj) (key other : String) (v : JsVal)
    (hne : key ≠ other) : readField (setProp o key v) other = readField o other := by
  simp [readField, getOwn_setProp_other o key other v hne]

/-- The text `1e-400` denotes a double that is zero: the number is falsy. -/
theorem truthy_num_underflow : truthy (.num "1e-400") = false := by
  have h : readDecimal "1e-400" = some (1, -400) := rfl
  simp only [truthy, numIsFalsy, h, roundsToZero]
  norm_num

/-- Numbers at the edge of zero: `0`, `-0`, `0.0` and `2e-324` (below half the
least positive double) are falsy, as is `NaN`; `3e-324`, `5e-324`, `1` and
`Infinity` are truthy. -/
theorem truthy_num_samples :
    truthy (.num "0") = false ∧ truthy (.num "-0") = false ∧ truthy (.num "0.0") = false ∧
    truthy (.num "2e-324") = false ∧ truthy (.num "NaN") = false ∧
    truthy (.num "3e-324") = true ∧ truthy (.num "5e-324") = true ∧
    truthy (.num "1") = true ∧ truthy (.num "Infinity") = true := by
  have h0 : readDecimal "0" = some (0, 0) := rfl
  have h1 : readDecimal "-0" = some (0, 0) := rfl
  have h2 : readDecimal "0.0" = some (0, -1) := rfl
  have h3 : readDecimal "2e-324" = some (2, -324) := rfl
  have h4 : readDecimal "3e-324" = some (3, -324) := rfl
  have h5 : readDecimal "5e-324" = some (5, -324) := rfl
  have h6 : readDecimal "1" = some (1, 0) := rfl
  have h7 : readDecimal "Infinity" = none := rfl
  have hn : ("Infinity" == "NaN") = false := by decide
  have hz : ∀ t : String, t ≠ "NaN" → (t == "NaN") = false := fun t ht => by simpa using ht
  refine ⟨?_, ?_, ?_, ?_, rfl, ?_, ?_, ?_, ?_⟩
  · simp [truthy, numIsFalsy, h0, roundsToZero]
  · simp [truthy, numIsFalsy, h1, roundsToZero]
  · simp only [truthy, numIsFalsy, h2, roundsToZero]
    norm_num
  · simp only [truthy, numIsFalsy, h3, roundsToZero]
    norm_num
  · simp only [truthy, numIsFalsy, h4, roundsToZero, hz "3e-324" (by decide)]
    norm_num
  · simp only [truthy, numIsFalsy, h5, roundsToZero, hz "5e-324" (by decide)]
    norm_num
  · simp [truthy, numIsFalsy, h6, roundsToZero]
  · simp [truthy, numIsFalsy, h7, hn]

theorem jsOr_falsy (a b : JsVal) (h : truthy a = false) : jsOr a b = b := by
  simp [jsOr, h]

theorem jsOr_truthy (a b : JsVal) (h : truthy a = true) : jsOr a b = a := by
  simp [jsOr, h]

theorem readField_of_getOwn_none (o : JsObj) (key : String) (h : getOwn o key = none) :
    readField o key = .undefined := by
  simp [readField, h]

theorem readField_of_getOwn_some (o : JsObj) (key : String) (v : JsVal)
    (h : getOwn o key = some v) : readField o key = v := by
  simp [readField, h]

/-- The three option reads of the constructor, in terms of the incoming object. -/
theorem handed_accessTokenURL (o : JsObj) :
    readField (defaultedOptions (some o)) "accessTokenURL"
      = jsOr (readField o "accessTokenURL") (.str defaultAccessTokenURL) := by
  simp only [defaultedOptions, Option.getD_some]
  rw [readField_setProp_other _ _ _ _ (by decide), readField_setProp_other _ _ _ _ (by decide),
    readField_setProp_same]

theorem handed_userAuthorizationURL (o : JsObj) :
    readField (defaultedOptions (some o)) "userAuthorizationURL"
      = jsOr (readField o "userAuthorizationURL") (.str defaultUserAuthorizationURL) := by
  simp only [defaultedOptions, Option.getD_some]
  rw [readField_setProp_other _ _ _ _ (by decide), readField_setProp_same,
    readField_setProp_other _ _ _ _ (by decide)]

theorem handed_sessionKey (o : JsObj) :
    readField (defaultedOptions (some o)) "sessionKey"
      = jsOr (readField o "sessionKey") (.str defaultSessionKey) := by
  simp only [defaultedOptions, Option.getD_some]
  rw [readField_setProp_same, readField_setProp_other _ _ _ _ (by decide),
    readField_setProp_other _ _ _ _ (by decide)]

theorem defaultedOptions_none : defaultedOptions none = defaultedOptions (some []) := rfl

/-! ## The callback, step by step -/

theorem userProfile_run (respond : GetRequest → Response) (token tokenSecret params : JsVal)
    (done : Done) (w : World) :
    userProfile (oauthGet respond) token tokenSecret params done w
      = profileCallback done (respond (profileRequest token tokenSecret)).err
          (respond (profileRequest token tokenSecret)).body
          (respond (profileRequest token tokenSecret)).res
          { w with requests := w.requests ++ [profileRequest token tokenSecret] } := rfl

theorem profileCallback_engine_error (done : Done) (err : JsVal) (body : String) (res : JsVal)
    (w : World) (herr : truthy err = true) :
    profileCallback done err body res w
      = (.error (.error "ReferenceError" "InternalOAuthError is not defined"), w) := by
  simp [profileCallback, herr, newInternalOAuthError]

theorem profileCallback_requests (done : Done) (err : JsVal) (body : String) (res : JsVal)
    (w : World) : (profileCallback done err body res w).2.requests = w.requests := by
  unfold profileCallback
  cases truthy err
  · simp only [Bool.false_eq_true, if_false]
    cases buildProfile body with
    | error e => rfl
    | ok profile =>
        simp only [callDone]
        cases done w.doneCalls [.null, profile] <;> rfl
  · simp [newInternalOAuthError]

theorem profileCallback_doneCalls (done : Done) (err : JsVal) (body : String) (res : JsVal)
    (w : World) :
    (profileCallback done err body res w).2.doneCalls
      = w.doneCalls ++ deliveries done w.doneCalls err body := by
  unfold profileCallback deliveries
  cases truthy err
  · simp only [Bool.false_eq_true, if_false]
    cases buildProfile body with
    | error e => rfl
    | ok profile =>
        simp only [callDone, redelivery]
        cases done w.doneCalls [.null, profile] <;> simp
  · simp [newInternalOAuthError]

theorem userProfile_doneCalls (respond : GetRequest → Response) (token tokenSecret params : JsVal)
    (done : Done) (w : World) :
    (userProfile (oauthGet respond) token tokenSecret params done w).2.doneCalls
      = w.doneCalls ++ deliveries done w.doneCalls
          (respond (profileRequest token tokenSecret)).err
          (respond (profileRequest token tokenSecret)).body := by
  rw [userProfile_run, profileCallback_doneCalls]

theorem newDoneCalls_userProfile (respond : GetRequest → Response)
    (token tokenSecret params : JsVal) (done : Done) (w : World) :
    newDoneCalls w (userProfile (oauthGet respond) token tokenSecret params done w).2
      = deliveries done w.doneCalls (respond (profileRequest token tokenSecret)).err
          (respond (profileRequest token tokenSecret)).body := by
  simp [newDoneCalls, userProfile_doneCalls]

theorem buildProfile_parse_error (body : String) (e : JsVal)
    (hparse : JSONparse body = .error e) : buildProfile body = .error e := by
  simp [buildProfile, hparse, bind, Except.bind]

theorem getProp_present (user : JsVal) (key : String) (hu : isNullish user = false) :
    getProp user key = .ok (memberOf user key) := by
  cases user <;> simp_all [getProp, memberOf, isNullish]

theorem buildProfile_present (body : String) (json user : JsVal)
    (hparse : JSONparse body = .ok json) (huser : getProp json "user" = .ok user)
    (hu : isNullish user = false) :
    buildProfile body = .ok (profileOf body json user) := by
  simp [buildProfile, hparse, huser, bind, Except.bind, getProp_present user _ hu,
    setProp, pure, Except.pure, profileOf]

theorem buildProfile_absent (body : String) (json : JsVal)
    (hparse : JSONparse body = .ok json) (habsent : userAbsent json = true) :
    ∃ message, buildProfile body = .error (.error "TypeError" message) := by
  cases json with
  | obj fields =>
      simp only [userAbsent] at habsent
      cases h : readField fields "user" <;> rw [h] at habsent <;>
        first
          | exact ⟨_, by
              simp [buildProfile, hparse, bind, Except.bind, getProp, h, cannotRead]; rfl⟩
          | cases habsent
  | _ => exact ⟨_, by simp [buildProfile, hparse, bind, Except.bind, getProp, cannotRead]; rfl⟩

/-! ## The constructor -/

/-- C6: whatever the base constructor and the verify callback, for a configuration
(an absent one included) that omits `accessTokenURL`, `userAuthorizationURL` or
`sessionKey`, the options handed to the base OAuth strategy carry the fixed
provider default for each omitted key. -/
theorem Strategy_defaults_when_omitted (base : BaseCtor) (this : JsObj)
    (options : Option JsObj) (verify : JsVal) :
    (omits options "accessTokenURL" = true →
        readField (Strategy base this options verify).handed "accessTokenURL"
          = .str "https://www.thingiverse.com/login/oauth/access_token") ∧
    (omits options "userAuthorizationURL" = true →
        readField (Strategy base this options verify).handed "userAuthorizationURL"
          = .str "https://www.thingiverse.com/login/oauth/authorize") ∧
    (omits options "sessionKey" = true →
        readField (Strategy base this options verify).handed "sessionKey"
          = .str "oauth:thingiverse") := by
  have key : ∀ o : JsObj, ∀ k : String, omits options k = true → options.getD [] = o →
      truthy (readField o k) = false := by
    intro o k hk ho
    cases options with
    | none =>
        simp at ho
        subst ho
        rfl
    | some o2 =>
        simp at ho
        subst ho
        rw [readField_of_getOwn_none _ _ (by simpa [omits] using hk)]
        rfl
  have hd : defaultedOptions options = defaultedOptions (some (options.getD [])) := by
    cases options <;> rfl
  refine ⟨fun h => ?_, fun h => ?_, fun h => ?_⟩
  · show readField (defaultedOptions options) "accessTokenURL" = _
    rw [hd, handed_accessTokenURL, jsOr_falsy _ _ (key _ _ h rfl)]
    rfl
  · show readField (defaultedOptions options) "userAuthorizationURL" = _
    rw [hd, handed_userAuthorizationURL, jsOr_falsy _ _ (key _ _ h rfl)]
    rfl
  · show readField (defaultedOptions options) "sessionKey" = _
    rw [hd, handed_sessionKey, jsOr_falsy _ _ (key _ _ h rfl)]
    rfl

/-- C6 at a configuration holding only the consumer credentials, and at an absent
configuration. -/
theorem Strategy_defaults_when_omitted_witness :
    (omits (some [("consumerKey", .str "k"), ("consumerSecret", .str "s")]) "accessTokenURL"
        = true ∧
      readField (Strategy sampleBase [] (some [("consumerKey", .str "k"),
          ("consumerSecret", .str "s")]) (.func "verify")).handed "accessTokenURL"
        = .str "https://www.thingiverse.com/login/oauth/access_token") ∧
    (omits none "sessionKey" = true ∧
      readField (Strategy sampleBase [] none (.func "verify")).handed "sessionKey"
        = .str "oauth:thingiverse") :=
  ⟨⟨rfl,
    (Strategy_defaults_when_omitted sampleBase []
      (some [("consumerKey", .str "k"), ("consumerSecret", .str "s")]) (.func "verify")).1 rfl⟩,
   ⟨rfl, (Strategy_defaults_when_omitted sampleBase [] none (.func "verify")).2.2 rfl⟩⟩

/-- C7, as stated, fails: a configuration that supplies the empty string for
`accessTokenURL` (or for `userAuthorizationURL`, or for `sessionKey`) is handed
to the base strategy with the provider default in its place. -/
theorem Strategy_override_empty_string_replaced :
    getOwn [("accessTokenURL", JsVal.str "")] "accessTokenURL" = some (.str "") ∧
    readField (Strategy sampleBase [] (some [("accessTokenURL", .str "")])
        (.func "verify")).handed "accessTokenURL"
      = .str "https://www.thingiverse.com/login/oauth/access_token" ∧
    readField (Strategy sampleBase [] (some [("accessTokenURL", .str "")])
        (.func "verify")).handed "accessTokenURL" ≠ .str "" := by
  refine ⟨rfl, rfl, ?_⟩
  intro h
  have h2 : JsVal.str "https://www.thingiverse.com/login/oauth/access_token" = .str "" := h
  injection h2 with h3
  exact absurd h3 (by decide)

/-- C7, amended: for every configuration and every value `v` supplied in it for
`accessTokenURL`, `userAuthorizationURL` or `sessionKey`: if `v` is truthy
(every non-empty string in particular) the options handed to the base OAuth
strategy carry exactly `v` for that key; if `v` is falsy (the empty string,
`undefined`, `null`, `false`, a zero, `NaN`) they carry the provider default
for that key. -/
theorem Strategy_override_precedence (base : BaseCtor) (this : JsObj) (o : JsObj)
    (verify : JsVal) (key : String) (v : JsVal)
    (hkey : key = "accessTokenURL" ∨ key = "userAuthorizationURL" ∨ key = "sessionKey")
    (hsupplied : getOwn o key = some v) :
    (truthy v = true → readField (Strategy base this (some o) verify).handed key = v) ∧
    (∀ s : String, v = .str s → s ≠ "" →
      readField (Strategy base this (some o) verify).handed key = .str s) ∧
    (truthy v = false → key = "accessTokenURL" →
      readField (Strategy base this (some o) verify).handed key
        = .str "https://www.thingiverse.com/login/oauth/access_token") ∧
    (truthy v = false → key = "userAuthorizationURL" →
      readField (Strategy base this (some o) verify).handed key
        = .str "https://www.thingiverse.com/login/oauth/authorize") ∧
    (truthy v = false → key = "sessionKey" →
      readField (Strategy base this (some o) verify).handed key = .str "oauth:thingiverse") := by
  have hkept : truthy v = true →
      readField (Strategy base this (some o) verify).handed key = v := by
    intro htruthy
    show readField (defaultedOptions (some o)) key = v
    rcases hkey with h | h | h <;> subst h
    · rw [handed_accessTokenURL, readField_of_getOwn_some _ _ _ hsupplied,
        jsOr_truthy _ _ htruthy]
    · rw [handed_userAuthorizationURL, readField_of_getOwn_some _ _ _ hsupplied,
        jsOr_truthy _ _ htruthy]
    · rw [handed_sessionKey, readField_of_getOwn_some _ _ _ hsupplied, jsOr_truthy _ _ htruthy]
  refine ⟨hkept, ?_, ?_, ?_, ?_⟩
  · intro s hv hs
    rw [← hv]
    apply hkept
    rw [hv]
    simp [truthy, hs]
  · intro hfalsy h
    subst h
    show readField (defaultedOptions (some o)) "accessTokenURL" = _
    rw [handed_accessTokenURL, readField_of_getOwn_some _ _ _ hsupplied, jsOr_falsy _ _ hfalsy]
    rfl
  · intro hfalsy h
    subst h
    show readField (defaultedOptions (some o)) "userAuthorizationURL" = _
    rw [handed_userAuthorizationURL, readField_of_getOwn_some _ _ _ hsupplied,
      jsOr_falsy _ _ hfalsy]
    rfl
  · intro hfalsy h
    subst h
    show readField (defaultedOptions (some o)) "sessionKey" = _
    rw [handed_sessionKey, readField_of_getOwn_some _ _ _ hsupplied, jsOr_falsy _ _ hfalsy]
    rfl

/-- C7 amended, at configurations that supply a session key of their own (kept),
an empty authorization URL, a `null` session key and an access-token URL that
is the number `1e-400`, zero as a double (each replaced by the default). -/
theorem Strategy_override_precedence_witness :
    readField (Strategy sampleBase [] (some [("sessionKey", .str "my:key")])
        (.func "verify")).handed "sessionKey" = .str "my:key" ∧
    readField (Strategy sampleBase [] (some [("userAuthorizationURL", .str "")])
        (.func "verify")).handed "userAuthorizationURL"
      = .str "https://www.thingiverse.com/login/oauth/authorize" ∧
    readField (Strategy sampleBase [] (some [("clientID", .str "id"), ("sessionKey", .null)])
        (.func "verify")).handed "sessionKey" = .str "oauth:thingiverse" ∧
    readField (Strategy sampleBase [] (some [("accessTokenURL", .num "1e-400")])
        (.func "verify")).handed "accessTokenURL"
      = .str "https://www.thingiverse.com/login/oauth/access_token" :=
  ⟨(Strategy_override_precedence sampleBase [] [("sessionKey", .str "my:key")] (.func "verify")
      "sessionKey" (.str "my:key") (Or.inr (Or.inr rfl)) rfl).1 rfl,
   (Strategy_override_precedence sampleBase [] [("userAuthorizationURL", .str "")]
      (.func "verify") "userAuthorizationURL" (.str "") (Or.inr (Or.inl rfl)) rfl).2.2.2.1
      rfl rfl,
   (Strategy_override_precedence sampleBase [] [("clientID", .str "id"), ("sessionKey", .null)]
      (.func "verify") "sessionKey" .null (Or.inr (Or.inr rfl)) rfl).2.2.2.2 rfl rfl,
   (Strategy_override_precedence sampleBase [] [("accessTokenURL", .num "1e-400")]
      (.func "verify") "accessTokenURL" (.num "1e-400") (Or.inl rfl) rfl).2.2.1
      truthy_num_underflow rfl⟩

/-- C8: whatever the configuration (a `name` key included), the verify callback
and the name the base constructor leaves on the instance, a constructed
Strategy has name exactly `thingiverse`. -/
theorem Strategy_name_fixed (base : BaseCtor) (this : JsObj) (options : Option JsObj)
    (verify : JsVal) (inst : JsObj)
    (hbuilt : (Strategy base this options verify).result = .ok inst) :
    readField inst "name" = .str "thingiverse" := by
  simp only [Strategy] at hbuilt
  cases hb : base this (defaultedOptions options) verify with
  | error e => rw [hb] at hbuilt; cases hbuilt
  | ok t =>
      rw [hb] at hbuilt
      injection hbuilt with h
      rw [← h, readField_setProp_same]

/-- C8 at a base constructor that names the instance `oauth` and a configuration
that carries a `name` key. -/
theorem Strategy_name_fixed_witness :
    (Strategy sampleBase [] (some [("name", .str "custom")]) (.func "verify")).result
      = .ok [("name", .str "thingiverse")] ∧
    readField [("name", JsVal.str "thingiverse")] "name" = .str "thingiverse" :=
  ⟨rfl, Strategy_name_fixed sampleBase [] (some [("name", .str "custom")]) (.func "verify")
    [("name", .str "thingiverse")] rfl⟩

/-! ## Fetching the profile -/

/-- C1: when the OAuth GET reports no error and the body parses as JSON to a
document with a `user` object, `done` is called with `(null, profile)`, where
`profile` has provider `thingiverse`, `id`, `name` and `email` read from
`json.user`, `_raw` the body unchanged and `_json` the parsed document (so that
parsing `_raw` gives `_json`); this is the first call of `done`, and another
follows only if `done` throws. -/
theorem userProfile_success (respond : GetRequest → Response)
    (token tokenSecret params : JsVal) (done : Done) (w : World) (json : JsVal) (fields : JsObj)
    (herr : truthy (respond (profileRequest token tokenSecret)).err = false)
    (hparse : JSONparse (respond (profileRequest token tokenSecret)).body = .ok json)
    (huser : getProp json "user" = .ok (.obj fields)) :
    (userProfile (oauthGet respond) token tokenSecret params done w).2.doneCalls
      = w.doneCalls ++
          [.null, .obj [("provider", .str "thingiverse"), ("id", readField fields "id"),
            ("name", readField fields "name"), ("email", readField fields "email"),
            ("_raw", .str (respond (profileRequest token tokenSecret)).body),
            ("_json", json)]]
          :: redelivery done w.doneCalls
              [.null, .obj [("provider", .str "thingiverse"), ("id", readField fields "id"),
                ("name", readField fields "name"), ("email", readField fields "email"),
                ("_raw", .str (respond (profileRequest token tokenSecret)).body),
                ("_json", json)]] ∧
    JSONparse (respond (profileRequest token tokenSecret)).body = .ok json := by
  refine ⟨?_, hparse⟩
  rw [userProfile_doneCalls]
  have hb := buildProfile_present _ json (.obj fields) hparse huser rfl
  simp only [deliveries, herr, hb]
  rfl

/-- C1 at the body of the specification: id `42`, name `Ada`, email
`ada@example.com`. -/
theorem userProfile_success_witness :
    (userProfile (oauthGet (always ⟨.null, adaBody, .undefined⟩)) (.str "token")
        (.str "secret") (.obj []) quietDone emptyWorld).2.doneCalls
      = [[.null, .obj [("provider", .str "thingiverse"), ("id", .str "42"),
          ("name", .str "Ada"), ("email", .str "ada@example.com"), ("_raw", .str adaBody),
          ("_json", .obj [("user", .obj [("id", .str "42"), ("name", .str "Ada"),
            ("email", .str "ada@example.com")])])]]] ∧
    JSONparse adaBody
      = .ok (.obj [("user", .obj [("id", .str "42"), ("name", .str "Ada"),
          ("email", .str "ada@example.com")])]) :=
  userProfile_success (always ⟨.null, adaBody, .undefined⟩) (.str "token") (.str "secret")
    (.obj []) quietDone emptyWorld
    (.obj [("user", .obj [("id", .str "42"), ("name", .str "Ada"),
      ("email", .str "ada@example.com")])])
    [("id", .str "42"), ("name", .str "Ada"), ("email", .str "ada@example.com")]
    rfl rfl rfl

/-- C2, evaluated at an engine error: with `err` a failed-request object the
callback throws a `ReferenceError` for the unbound `InternalOAuthError`, and
`done` is not invoked at all, neither with a wrapping error nor otherwise. -/
theorem userProfile_engine_error_never_reaches_done :
    userProfile (oauthGet (always ⟨http500, "", .undefined⟩)) (.str "token") (.str "secret")
        (.obj []) quietDone emptyWorld
      = (.error (.error "ReferenceError" "InternalOAuthError is not defined"),
          { requests := [profileRequest (.str "token") (.str "secret")], doneCalls := [] }) :=
  rfl

/-- C3: when the OAuth GET reports no error and the body does not parse as JSON,
`done` is invoked once, with the error thrown by `JSON.parse` itself as its only
argument; no profile is handed over. -/
theorem userProfile_malformed_body (respond : GetRequest → Response)
    (token tokenSecret params : JsVal) (done : Done) (w : World) (e : JsVal)
    (herr : truthy (respond (profileRequest token tokenSecret)).err = false)
    (hparse : JSONparse (respond (profileRequest token tokenSecret)).body = .error e) :
    (userProfile (oauthGet respond) token tokenSecret params done w).2.doneCalls
      = w.doneCalls ++ [[e]] := by
  rw [userProfile_doneCalls]
  simp only [deliveries, herr, buildProfile_parse_error _ e hparse]
  rfl

/-- C3 at the body `not json`. -/
theorem userProfile_malformed_body_witness :
    JSONparse "not json" = .error jsonSyntaxError ∧
    (userProfile (oauthGet (always ⟨.null, "not json", .undefined⟩)) (.str "token")
        (.str "secret") (.obj []) quietDone emptyWorld).2.doneCalls
      = [[.error "SyntaxError" "Unexpected token in JSON"]] :=
  ⟨rfl, userProfile_malformed_body (always ⟨.null, "not json", .undefined⟩) (.str "token")
    (.str "secret") (.obj []) quietDone emptyWorld jsonSyntaxError rfl rfl⟩

/-- The body `"not json"`, quotes included, is JSON (a string): `JSON.parse`
succeeds, and the error `done` receives is the `TypeError` of reading `id` on
the missing `user`. -/
theorem userProfile_quoted_not_json :
    JSONparse "\"not json\"" = .ok (.str "not json") ∧
    (userProfile (oauthGet (always ⟨.null, "\"not json\"", .undefined⟩)) (.str "token")
        (.str "secret") (.obj []) quietDone emptyWorld).2.doneCalls
      = [[.error "TypeError" "Cannot read properties of undefined (reading 'id')"]] :=
  ⟨rfl, rfl⟩

/-- C4, as stated, fails both ways: when `done` throws on being handed the
profile it is invoked a second time, with the thrown value; and when the
engine reports an error it is not invoked at all. -/
theorem userProfile_done_twice_or_never :
    (newDoneCalls emptyWorld
        (userProfile (oauthGet (always ⟨.null, adaBody, .undefined⟩)) (.str "token")
          (.str "secret") (.obj []) throwingDone emptyWorld).2)
      = [[.null, profileOf adaBody
            (.obj [("user", .obj [("id", .str "42"), ("name", .str "Ada"),
              ("email", .str "ada@example.com")])])
            (.obj [("id", .str "42"), ("name", .str "Ada"), ("email", .str "ada@example.com")])],
         [.error "Error" "verify failed"]] ∧
    (newDoneCalls emptyWorld
        (userProfile (oauthGet (always ⟨.null, adaBody, .undefined⟩)) (.str "token")
          (.str "secret") (.obj []) throwingDone emptyWorld).2).length = 2 ∧
    (newDoneCalls emptyWorld
        (userProfile (oauthGet (always ⟨http500, "", .undefined⟩)) (.str "token")
          (.str "secret") (.obj []) quietDone emptyWorld).2).length = 0 :=
  ⟨rfl, rfl, rfl⟩

/-- C4, amended: whenever the OAuth GET reports no error, `done` is invoked once
with an error, or once with `(null, profile)` and then a second time, with the
thrown value, exactly when that call throws; in particular a `done` that
returns normally from its first invocation is invoked exactly once. -/
theorem userProfile_done_once (respond : GetRequest → Response)
    (token tokenSecret params : JsVal) (done : Done) (w : World)
    (herr : truthy (respond (profileRequest token tokenSecret)).err = false) :
    ((∃ e, newDoneCalls w
          (userProfile (oauthGet respond) token tokenSecret params done w).2 = [[e]]) ∨
      (∃ profile, newDoneCalls w
          (userProfile (oauthGet respond) token tokenSecret params done w).2
            = [.null, profile] :: redelivery done w.doneCalls [.null, profile])) ∧
    ((∀ args, done w.doneCalls args = none) →
      (newDoneCalls w
        (userProfile (oauthGet respond) token tokenSecret params done w).2).length = 1) := by
  rw [newDoneCalls_userProfile]
  simp only [deliveries, herr]
  cases hb : buildProfile (respond (profileRequest token tokenSecret)).body with
  | error e => exact ⟨Or.inl ⟨e, rfl⟩, fun _ => rfl⟩
  | ok profile =>
      refine ⟨Or.inr ⟨profile, rfl⟩, fun hq => ?_⟩
      simp [redelivery, hq]

/-- C4 amended, at the body of the specification and a `done` that returns. -/
theorem userProfile_done_once_witness :
    (newDoneCalls emptyWorld
      (userProfile (oauthGet (always ⟨.null, adaBody, .undefined⟩)) (.str "token")
        (.str "secret") (.obj []) quietDone emptyWorld).2).length = 1 :=
  (userProfile_done_once (always ⟨.null, adaBody, .undefined⟩) (.str "token") (.str "secret")
    (.obj []) quietDone emptyWorld rfl).2 (fun _ => rfl)

/-- C5, as stated, fails: the body with an empty `user` object parses, `user`
lacks `id`, `name` and `email`, and `done` receives `(null, profile)` with
those three fields `undefined` instead of an error. -/
theorem userProfile_partial_profile :
    JSONparse emptyUserBody = .ok (.obj [("user", .obj [])]) ∧
    getOwn ([] : JsObj) "id" = none ∧
    (userProfile (oauthGet (always ⟨.null, emptyUserBody, .undefined⟩)) (.str "token")
        (.str "secret") (.obj []) quietDone emptyWorld).2.doneCalls
      = [[.null, .obj [("provider", .str "thingiverse"), ("id", .undefined),
          ("name", .undefined), ("email", .undefined), ("_raw", .str emptyUserBody),
          ("_json", .obj [("user", .obj [])])]]] :=
  ⟨rfl, rfl, rfl⟩

/-- C5, amended: for every body that parses as JSON, if the path `json.user` is
absent (the document is not an object or is null, or `user` is missing or
null) `done` receives a `TypeError` as its only argument and no profile; if
`user` is present and not null, `done` receives `(null, profile)` with `id`,
`name` and `email` read from `json.user`, `undefined` where `user` lacks them. -/
theorem userProfile_absent_user (respond : GetRequest → Response)
    (token tokenSecret params : JsVal) (done : Done) (w : World) (json : JsVal)
    (herr : truthy (respond (profileRequest token tokenSecret)).err = false)
    (hparse : JSONparse (respond (profileRequest token tokenSecret)).body = .ok json) :
    (userAbsent json = true →
      ∃ message, newDoneCalls w
          (userProfile (oauthGet respond) token tokenSecret params done w).2
        = [[.error "TypeError" message]]) ∧
    (∀ user, getProp json "user" = .ok user → isNullish user = false →
      newDoneCalls w (userProfile (oauthGet respond) token tokenSecret params done w).2
        = [.null, .obj [("provider", .str "thingiverse"), ("id", memberOf user "id"),
            ("name", memberOf user "name"), ("email", memberOf user "email"),
            ("_raw", .str (respond (profileRequest token tokenSecret)).body),
            ("_json", json)]]
          :: redelivery done w.doneCalls
              [.null, .obj [("provider", .str "thingiverse"), ("id", memberOf user "id"),
                ("name", memberOf user "name"), ("email", memberOf user "email"),
                ("_raw", .str (respond (profileRequest token tokenSecret)).body),
                ("_json", json)]]) := by
  rw [newDoneCalls_userProfile]
  constructor
  · intro habsent
    obtain ⟨message, hb⟩ := buildProfile_absent _ json hparse habsent
    exact ⟨message, by simp only [deliveries, herr, hb]; rfl⟩
  · intro user huser hu
    have hb := buildProfile_present _ json user hparse huser hu
    simp only [deliveries, herr, hb]
    rfl

/-- C5 amended, at the body `{}` (no `user`) and at a body whose `user` is the
number 7. -/
theorem userProfile_absent_user_witness :
    (userAbsent (.obj []) = true ∧
      ∃ message, newDoneCalls emptyWorld
          (userProfile (oauthGet (always ⟨.null, "\x7b\x7d", .undefined⟩)) (.str "token")
            (.str "secret") (.obj []) quietDone emptyWorld).2
        = [[.error "TypeError" message]]) ∧
    newDoneCalls emptyWorld
        (userProfile (oauthGet (always ⟨.null, "\x7b\"user\":7\x7d", .undefined⟩))
          (.str "token") (.str "secret") (.obj []) quietDone emptyWorld).2
      = [[.null, .obj [("provider", .str "thingiverse"), ("id", .undefined),
          ("name", .undefined), ("email", .undefined), ("_raw", .str "\x7b\"user\":7\x7d"),
          ("_json", .obj [("user", .num "7")])]]] :=
  ⟨⟨rfl,
    (userProfile_absent_user (always ⟨.null, "\x7b\x7d", .undefined⟩) (.str "token")
      (.str "secret") (.obj []) quietDone emptyWorld (.obj []) rfl rfl).1 rfl⟩,
   (userProfile_absent_user (always ⟨.null, "\x7b\"user\":7\x7d", .undefined⟩) (.str "token")
      (.str "secret") (.obj []) quietDone emptyWorld (.obj [("user", .num "7")]) rfl rfl).2
      (.num "7") rfl rfl⟩

/-- C9: every invocation of `userProfile` issues exactly one GET through the OAuth
engine, to `https://api.thingiverse.com/users/me`, with `token` and
`tokenSecret` as received; whatever the response and whatever `done` does, no
further request is issued, and neither `params` nor any configuration enters
the request. -/
theorem userProfile_single_request (respond : GetRequest → Response)
    (token tokenSecret params : JsVal) (done : Done) (w : World) :
    (userProfile (oauthGet respond) token tokenSecret params done w).2.requests
      = w.requests
          ++ [(⟨"https://api.thingiverse.com/users/me", token, tokenSecret⟩ : GetRequest)] ∧
    ∀ get : OAuthGet, userProfile get token tokenSecret params done
      = get "https://api.thingiverse.com/users/me" token tokenSecret (profileCallback done) := by
  refine ⟨?_, fun _ => rfl⟩
  rw [userProfile_run, profileCallback_requests]
  rfl

/-- C10, as stated, fails: two fetches with the same credentials, the same
callback and the same GET response hand different arguments to `done` when the
callback throws on the profile, for the second call of each run re-delivers
whatever `done` threw, and that depends on the calls that ran before. -/
theorem userProfile_redelivery_depends_on_done :
    newDoneCalls emptyWorld
        (userProfile (oauthGet (always ⟨.null, emptyUserBody, .undefined⟩)) (.str "token")
          (.str "secret") (.obj []) moodyDone emptyWorld).2
      = [[.null, profileOf emptyUserBody (.obj [("user", .obj [])]) (.obj [])],
         [.str "first failure"]] ∧
    newDoneCalls
        (userProfile (oauthGet (always ⟨.null, emptyUserBody, .undefined⟩)) (.str "token")
          (.str "secret") (.obj []) moodyDone emptyWorld).2
        (userProfile (oauthGet (always ⟨.null, emptyUserBody, .undefined⟩)) (.str "token")
          (.str "secret") (.obj []) moodyDone
          (userProfile (oauthGet (always ⟨.null, emptyUserBody, .undefined⟩)) (.str "token")
            (.str "secret") (.obj []) moodyDone emptyWorld).2).2
      = [[.null, profileOf emptyUserBody (.obj [("user", .obj [])]) (.obj [])],
         [.str "another failure"]] ∧
    JsVal.str "first failure" ≠ JsVal.str "another failure" := by
  refine ⟨rfl, rfl, ?_⟩
  intro h
  injection h with h2
  exact absurd h2 (by decide)

/-- C10, amended: for two invocations whose GET responses agree in `err` and
`body`, whatever their tokens, token secrets, params, raw response objects,
completion callbacks and the requests and `done` calls made before, the first
invocation of `done` (if any) carries the same arguments in both; and if the
two callbacks react alike to being invoked, all invocations of `done` made by
the two runs carry the same arguments. -/
theorem userProfile_noninterference (respond1 respond2 : GetRequest → Response)
    (token1 tokenSecret1 params1 token2 tokenSecret2 params2 : JsVal) (done1 done2 : Done)
    (w1 w2 : World)
    (herr : (respond1 (profileRequest token1 tokenSecret1)).err
      = (respond2 (profileRequest token2 tokenSecret2)).err)
    (hbody : (respond1 (profileRequest token1 tokenSecret1)).body
      = (respond2 (profileRequest token2 tokenSecret2)).body) :
    (newDoneCalls w1
        (userProfile (oauthGet respond1) token1 tokenSecret1 params1 done1 w1).2).head?
      = (newDoneCalls w2
        (userProfile (oauthGet respond2) token2 tokenSecret2 params2 done2 w2).2).head? ∧
    ((∀ args, done1 w1.doneCalls args = done2 w2.doneCalls args) →
      newDoneCalls w1 (userProfile (oauthGet respond1) token1 tokenSecret1 params1 done1 w1).2
        = newDoneCalls w2
          (userProfile (oauthGet respond2) token2 tokenSecret2 params2 done2 w2).2) := by
  rw [newDoneCalls_userProfile, newDoneCalls_userProfile, herr, hbody]
  constructor
  · simp only [deliveries]
    cases truthy (respond2 (profileRequest token2 tokenSecret2)).err
    · simp only [Bool.false_eq_true, if_false]
      cases buildProfile (respond2 (profileRequest token2 tokenSecret2)).body <;> rfl
    · rfl
  · intro hsame
    simp only [deliveries, redelivery, hsame]

/-- C10 amended, at two fetches with different credentials and different earlier
traffic, answered with the same body. -/
theorem userProfile_noninterference_witness :
    newDoneCalls emptyWorld
        (userProfile (oauthGet (always ⟨.null, adaBody, .undefined⟩)) (.str "token-a")
          (.str "secret-a") (.obj []) quietDone emptyWorld).2
      = newDoneCalls
          { requests := [profileRequest (.str "token-a") (.str "secret-a")],
            doneCalls := [[.error "SyntaxError" "Unexpected token in JSON"]] }
          (userProfile (oauthGet (always ⟨.null, adaBody, .func "res"⟩)) (.str "token-b")
            (.str "secret-b") (.obj [("oauth_verifier", .str "v")]) quietDone
            { requests := [profileRequest (.str "token-a") (.str "secret-a")],
              doneCalls := [[.error "SyntaxError" "Unexpected token in JSON"]] }).2 :=
  (userProfile_noninterference (always ⟨.null, adaBody, .undefined⟩)
    (always ⟨.null, adaBody, .func "res"⟩) (.str "token-a") (.str "secret-a") (.obj [])
    (.str "token-b") (.str "secret-b") (.obj [("oauth_verifier", .str "v")]) quietDone quietDone
    emptyWorld
    { requests := [profileRequest (.str "token-a") (.str "secret-a")],
      doneCalls := [[.error "SyntaxError" "Unexpected token in JSON"]] }
    rfl rfl).2 (fun _ => rfl)

end PassportThingiverse
